import Mathlib

/-!
Shallow embedding of the Tradebot backtesting core.

Sources embedded here:
* `src/client/src/lib/tradingStrategies.ts` — indicator library
  (`calculateEMA`, `calculateRSI`, `calculateMACD`, `calculateBollingerBands`)
  and the four strategy functions (`movingAverageCrossover`, `rsiStrategy`,
  `macdStrategy`, `bollingerBandsStrategy`).
* `src/server/services/backtestService.ts` — `applyStrategy`,
  `simulateTrades`, and the summary recomputation inside
  `getBacktestDetails`.

Modelling conventions:
* JavaScript numbers are modelled as `ℚ` (exact arithmetic).
* `Math.floor` is `Int.floor`.
* A JavaScript division whose result would be `NaN`/`Infinity`
  (denominator 0) is modelled as `none` wherever the source does not
  guard the denominator; guarded divisions stay in `ℚ`.
* Reading past the end of an array yields `undefined` in JavaScript;
  where such a read can only feed a numeric comparison we model it as
  the default value `0`.
* `Math.sqrt` has no exact rational counterpart; `Rat.sqrt` stands in
  (Bollinger band numeric values are never compared by any theorem).
* Dates are bare natural-number timestamps.
-/

namespace Tradebot

/-- One OHLCV bar (`generateMockHistoricalData` / broker candles). -/
structure Candle where
  timestamp : Nat
  openPrice : ℚ
  high : ℚ
  low : ℚ
  close : ℚ
  volume : ℚ
deriving DecidableEq, Repr

/-- The three discrete signal kinds of `applyStrategy`. -/
inductive SignalType where
  | BUY
  | SELL
  | HOLD
deriving DecidableEq, Repr

/-- One element of the `signals` array built in `applyStrategy`. -/
structure Signal where
  date : Nat
  type : SignalType
  price : ℚ
deriving DecidableEq, Repr

/-! ## Indicator library (`tradingStrategies.ts`, helper functions) -/

/-- The smoothing loop of `calculateEMA`:
`ema = (data[i] - ema) * k + ema`, one output per remaining input. -/
def emaLoop (k : ℚ) (ema : ℚ) : List ℚ → List ℚ
  | [] => []
  | p :: rest =>
      let ema' := (p - ema) * k + ema
      ema' :: emaLoop k ema' rest

/-- `calculateEMA(data, period)`: seed with the simple average of the
first `period` prices, then smooth the remainder with
`k = 2 / (period + 1)`.  The source performs no length check. -/
def calculateEMA (data : List ℚ) (period : ℕ) : List ℚ :=
  let k : ℚ := 2 / ((period : ℚ) + 1)
  let seed : ℚ := (data.take period).sum / (period : ℚ)
  seed :: emaLoop k seed (data.drop period)

/-- Consecutive differences `data[i] - data[i-1]` (the loop building
`gains`/`losses` in `calculateRSI`, before splitting by sign). -/
def deltas : List ℚ → List ℚ
  | a :: b :: rest => (b - a) :: deltas (b :: rest)
  | _ => []

/-- `100 - (100 / (1 + rs))` with
`rs = avgGain / (avgLoss === 0 ? 0.001 : avgLoss)` — the RSI formula
as written in `calculateRSI`, including the `0.001` substitution for a
zero average loss. -/
def rsiOf (avgGain avgLoss : ℚ) : ℚ :=
  let rs := avgGain / (if avgLoss = 0 then (1 : ℚ) / 1000 else avgLoss)
  100 - 100 / (1 + rs)

/-- The Wilder smoothing loop of `calculateRSI` over the remaining
`(gain, loss)` pairs. -/
def rsiLoop (period : ℕ) (avgGain avgLoss : ℚ) : List (ℚ × ℚ) → List ℚ
  | [] => []
  | gl :: rest =>
      let avgGain' := (avgGain * ((period : ℚ) - 1) + gl.1) / (period : ℚ)
      let avgLoss' := (avgLoss * ((period : ℚ) - 1) + gl.2) / (period : ℚ)
      rsiOf avgGain' avgLoss' :: rsiLoop period avgGain' avgLoss' rest

/-- `calculateRSI(data, period)`: per-step gains and losses, seed
averages as simple means over the first `period` deltas, then Wilder
smoothing.  Always emits the seeded value first, as the source does. -/
def calculateRSI (data : List ℚ) (period : ℕ) : List ℚ :=
  let ds := deltas data
  let gains := ds.map (fun c => if c > 0 then c else 0)
  let losses := ds.map (fun c => if c < 0 then -c else 0)
  let avgGain := (gains.take period).sum / (period : ℚ)
  let avgLoss := (losses.take period).sum / (period : ℚ)
  rsiOf avgGain avgLoss ::
    rsiLoop period avgGain avgLoss ((gains.drop period).zip (losses.drop period))

/-- Indexing with an `ℤ` index, JavaScript-style: out-of-range
(including negative) reads yield the stand-in `0` for `undefined`. -/
def intGetD (l : List ℚ) (i : ℤ) : ℚ :=
  if 0 ≤ i then l.getD i.toNat 0 else 0

/-- `calculateMACD(data, fastPeriod, slowPeriod, signalPeriod)`:
macd line from the index-shifted difference of the two EMAs, signal
line as an EMA of the macd line, histogram as their index-aligned
difference. -/
def calculateMACD (data : List ℚ) (fastPeriod slowPeriod signalPeriod : ℕ) :
    List ℚ × List ℚ × List ℚ :=
  let fastEMA := calculateEMA data fastPeriod
  let slowEMA := calculateEMA data slowPeriod
  let offset : ℤ := (slowEMA.length : ℤ) - (fastEMA.length : ℤ)
  let macdLine := (List.range fastEMA.length).filterMap (fun (i : ℕ) =>
    if offset ≤ (i : ℤ) then
      some (fastEMA.getD i 0 - intGetD slowEMA ((i : ℤ) + offset))
    else none)
  let signalLine := calculateEMA macdLine signalPeriod
  let histOffset : ℤ := (macdLine.length : ℤ) - (signalLine.length : ℤ)
  let histogram := (List.range signalLine.length).map (fun (i : ℕ) =>
    intGetD macdLine ((i : ℤ) + histOffset) - signalLine.getD i 0)
  (macdLine, signalLine, histogram)

/-- `calculateBollingerBands(data, period, stdDev)`: trailing
`period`-wide simple mean and population standard deviation,
`upper/lower = mean ± stdDev·sd`.  Returns `(middle, upper, lower)`. -/
def calculateBollingerBands (data : List ℚ) (period : ℕ) (stdDev : ℚ) :
    List ℚ × List ℚ × List ℚ :=
  let idxs := (List.range data.length).filter (fun i => period - 1 ≤ i)
  let rows := idxs.map (fun i =>
    let slice := ((data.drop (i + 1 - period)).take period)
    let avg := slice.sum / (period : ℚ)
    let variance := (slice.map (fun price => (price - avg) ^ 2)).sum / (period : ℚ)
    let sd := Rat.sqrt variance
    (avg, avg + stdDev * sd, avg - stdDev * sd))
  (rows.map (·.1), rows.map (·.2.1), rows.map (·.2.2))

/-! ## Strategy functions (`tradingStrategies.ts`, exported functions)

Each returns a single `{signal, meta}` record; the short-data guard
returns a record with signal `NEUTRAL` and an empty meta object, modelled as `meta = none`. -/

/-- `meta` record of `movingAverageCrossover`. -/
structure MacMeta where
  shortEMA : ℚ
  longEMA : ℚ
  crossover : Bool
deriving DecidableEq, Repr

/-- Return value of `movingAverageCrossover`. -/
structure MacResult where
  signal : String
  meta : Option MacMeta
deriving DecidableEq, Repr

/-- `movingAverageCrossover(data, shortPeriod, longPeriod)`: one
`{signal, meta}` record from the last two points of the two EMAs. -/
def movingAverageCrossover (data : List Candle) (shortPeriod longPeriod : ℕ) :
    MacResult :=
  if data.length < longPeriod then
    { signal := "NEUTRAL", meta := none }
  else
    let closes := data.map Candle.close
    let shortEMA := calculateEMA closes shortPeriod
    let longEMA := calculateEMA closes longPeriod
    let currentShortEMA := shortEMA.getD (shortEMA.length - 1) 0
    let previousShortEMA := shortEMA.getD (shortEMA.length - 2) 0
    let currentLongEMA := longEMA.getD (longEMA.length - 1) 0
    let previousLongEMA := longEMA.getD (longEMA.length - 2) 0
    let currentCrossover := decide (currentShortEMA > currentLongEMA)
    let previousCrossover := decide (previousShortEMA > previousLongEMA)
    let signal :=
      if currentCrossover && !previousCrossover then "BUY"
      else if !currentCrossover && previousCrossover then "SELL"
      else "NEUTRAL"
    { signal,
      meta := some { shortEMA := currentShortEMA, longEMA := currentLongEMA,
                     crossover := currentCrossover } }

/-- `meta` record of `rsiStrategy`. -/
structure RsiMeta where
  rsi : ℚ
  overbought : ℚ
  oversold : ℚ
deriving DecidableEq, Repr

/-- Return value of `rsiStrategy`. -/
structure RsiResult where
  signal : String
  meta : Option RsiMeta
deriving DecidableEq, Repr

/-- `rsiStrategy(data, period, overbought, oversold)`: one record from
the last two RSI values. -/
def rsiStrategy (data : List Candle) (period : ℕ) (overbought oversold : ℚ) :
    RsiResult :=
  if data.length < period + 14 then
    { signal := "NEUTRAL", meta := none }
  else
    let rsiValues := calculateRSI (data.map Candle.close) period
    let currentRSI := rsiValues.getD (rsiValues.length - 1) 0
    let previousRSI := rsiValues.getD (rsiValues.length - 2) 0
    let signal :=
      if currentRSI < oversold ∧ previousRSI ≥ oversold then "BUY"
      else if currentRSI > overbought ∧ previousRSI ≤ overbought then "SELL"
      else "NEUTRAL"
    { signal,
      meta := some { rsi := currentRSI, overbought, oversold } }

/-- `meta` record of `macdStrategy` (its inner `signal` field is the
signal-line value, distinct from the outer discrete signal). -/
structure MacdMeta where
  macd : ℚ
  signalLine : ℚ
  histogram : ℚ
deriving DecidableEq, Repr

/-- Return value of `macdStrategy`. -/
structure MacdResult where
  signal : String
  meta : Option MacdMeta
deriving DecidableEq, Repr

/-- `macdStrategy(data, fastPeriod, slowPeriod, signalPeriod)`: one
record from the last two histogram values and last macd/signal
values. -/
def macdStrategy (data : List Candle) (fastPeriod slowPeriod signalPeriod : ℕ) :
    MacdResult :=
  if data.length < slowPeriod + signalPeriod then
    { signal := "NEUTRAL", meta := none }
  else
    let r := calculateMACD (data.map Candle.close) fastPeriod slowPeriod signalPeriod
    let macdLine := r.1
    let signalLine := r.2.1
    let histogram := r.2.2
    let currentMacd := macdLine.getD (macdLine.length - 1) 0
    let currentSignal := signalLine.getD (signalLine.length - 1) 0
    let currentHistogram := histogram.getD (histogram.length - 1) 0
    let previousHistogram := histogram.getD (histogram.length - 2) 0
    let signal :=
      if currentMacd > currentSignal ∧ previousHistogram ≤ 0 ∧ currentHistogram > 0 then
        "BUY"
      else if currentMacd < currentSignal ∧ previousHistogram ≥ 0 ∧ currentHistogram < 0 then
        "SELL"
      else "NEUTRAL"
    { signal,
      meta := some { macd := currentMacd, signalLine := currentSignal,
                     histogram := currentHistogram } }

/-- `meta` record of `bollingerBandsStrategy`. -/
structure BbMeta where
  price : ℚ
  upper : ℚ
  middle : ℚ
  lower : ℚ
deriving DecidableEq, Repr

/-- Return value of `bollingerBandsStrategy`. -/
structure BbResult where
  signal : String
  meta : Option BbMeta
deriving DecidableEq, Repr

/-- `bollingerBandsStrategy(data, period, stdDev)`: one record from the
last two closes against the last two band values. -/
def bollingerBandsStrategy (data : List Candle) (period : ℕ) (stdDev : ℚ) :
    BbResult :=
  if data.length < period then
    { signal := "NEUTRAL", meta := none }
  else
    let closes := data.map Candle.close
    let r := calculateBollingerBands closes period stdDev
    let middle := r.1
    let upper := r.2.1
    let lower := r.2.2
    let currentPrice := closes.getD (data.length - 1) 0
    let currentUpper := upper.getD (upper.length - 1) 0
    let currentLower := lower.getD (lower.length - 1) 0
    let previousPrice := closes.getD (data.length - 2) 0
    let previousLower := lower.getD (lower.length - 2) 0
    let previousUpper := upper.getD (upper.length - 2) 0
    let signal :=
      if previousPrice ≤ previousLower ∧ currentPrice > currentLower then "BUY"
      else if previousPrice ≥ previousUpper ∧ currentPrice < currentUpper then "SELL"
      else "NEUTRAL"
    { signal,
      meta := some { price := currentPrice, upper := currentUpper,
                     middle := middle.getD (middle.length - 1) 0,
                     lower := currentLower } }

/-! ## `applyStrategy` (`backtestService.ts`, lines 251–320) -/

/-- A thrown JavaScript error: either a dynamic `TypeError` or an
explicitly constructed `Error(message)`. -/
inductive JsError where
  | typeError (msg : String)
  | jsError (msg : String)
deriving DecidableEq, Repr

/-- `true` exactly on a dynamic `TypeError`. -/
def JsError.isTypeError : JsError → Bool
  | .typeError _ => true
  | .jsError _ => false

/-- The `parameters: Record<string, any>` argument; destructuring
defaults are applied at each use site, so absent keys are `none`. -/
structure Params where
  shortPeriod : Option ℕ := none
  longPeriod : Option ℕ := none
  period : Option ℕ := none
  overbought : Option ℚ := none
  oversold : Option ℚ := none
  fastPeriod : Option ℕ := none
  slowPeriod : Option ℕ := none
  signalPeriod : Option ℕ := none
  stdDev : Option ℚ := none
deriving DecidableEq, Repr

/-- The `switch` of `applyStrategy` up to (and including) the
`result.map(...)` call of each branch.  Every strategy function returns
a single `{signal, meta}` record rather than an array, so `result.map`
is a dynamic `TypeError` in every supported branch; each
strategy function is still evaluated first, exactly as in the source. -/
def applyStrategyRaw (data : List Candle) (strategyName : String) (p : Params) :
    Except JsError (List Signal) :=
  if data.isEmpty then
    Except.error (.jsError "No data provided for strategy application")
  else
    match strategyName with
    | "Moving Average Crossover" =>
        let _result :=
          movingAverageCrossover data (p.shortPeriod.getD 20) (p.longPeriod.getD 50)
        Except.error (.typeError "result.map is not a function")
    | "RSI Strategy" =>
        let _result :=
          rsiStrategy data (p.period.getD 14) (p.overbought.getD 70) (p.oversold.getD 30)
        Except.error (.typeError "result.map is not a function")
    | "MACD Strategy" =>
        let _result :=
          macdStrategy data (p.fastPeriod.getD 12) (p.slowPeriod.getD 26)
            (p.signalPeriod.getD 9)
        Except.error (.typeError "result.map is not a function")
    | "Bollinger Bands Strategy" =>
        let _result :=
          bollingerBandsStrategy data (p.period.getD 20) (p.stdDev.getD 2)
        Except.error (.typeError "result.map is not a function")
    | _ =>
        Except.error (.jsError ("Strategy " ++ strategyName ++ " not supported"))

/-- `applyStrategy(data, strategyName, parameters)`: the `switch`
above followed by the final
`signals.filter` step that removes the HOLD entries. -/
def applyStrategy (data : List Candle) (strategyName : String) (p : Params) :
    Except JsError (List Signal) :=
  (applyStrategyRaw data strategyName p).map (fun signals =>
    signals.filter (fun s => s.type ≠ SignalType.HOLD))

/-! ## `simulateTrades` (`backtestService.ts`, lines 325–447) -/

/-- One executed trade as pushed onto `trades`. -/
structure Trade where
  date : Nat
  type : SignalType
  price : ℚ
  quantity : ℤ
  profit : Option ℚ
deriving DecidableEq, Repr

/-- One `{date, equity}` point of the equity curve. -/
structure EquityPoint where
  date : Nat
  equity : ℚ
deriving DecidableEq, Repr

/-- The mutable locals of `simulateTrades` at a point in its loop. -/
structure SimState where
  capital : ℚ
  position : ℤ
  entryPrice : ℚ
  trades : List Trade
  maxDrawdown : ℚ
  peak : ℚ
  winningTrades : ℕ
  totalTrades : ℕ
  equityCurve : List EquityPoint
deriving DecidableEq, Repr

/-- The locals as initialised before the loop; the initial equity point
uses `signals[0]?.date || new Date()`, with the current-time fallback
modelled as timestamp `0`. -/
def initState (signals : List Signal) (initialCapital : ℚ) : SimState :=
  { capital := initialCapital
    position := 0
    entryPrice := 0
    trades := []
    maxDrawdown := 0
    peak := initialCapital
    winningTrades := 0
    totalTrades := 0
    equityCurve := [{ date := (signals.head?.map Signal.date).getD 0,
                      equity := initialCapital }] }

/-- One iteration of the `for (const signal of signals)` loop. -/
def simStep (st : SimState) (signal : Signal) : SimState :=
  if signal.type = SignalType.BUY ∧ st.position = 0 then
    let quantity : ℤ := ⌊st.capital / signal.price⌋
    if quantity > 0 then
      let cost := (quantity : ℚ) * signal.price
      let capital' := st.capital - cost
      { st with
          capital := capital'
          position := quantity
          entryPrice := signal.price
          trades := st.trades ++
            [{ date := signal.date, type := SignalType.BUY, price := signal.price,
               quantity := quantity, profit := none }]
          equityCurve := st.equityCurve ++
            [{ date := signal.date, equity := capital' + (quantity : ℚ) * signal.price }] }
    else st
  else if signal.type = SignalType.SELL ∧ st.position > 0 then
    let sellValue := (st.position : ℚ) * signal.price
    let profit := sellValue - (st.position : ℚ) * st.entryPrice
    let capital' := st.capital + sellValue
    let peak' := if capital' > st.peak then capital' else st.peak
    let maxDrawdown' :=
      if capital' > st.peak then st.maxDrawdown
      else
        let drawdown := (st.peak - capital') / st.peak * 100
        if drawdown > st.maxDrawdown then drawdown else st.maxDrawdown
    { st with
        capital := capital'
        position := 0
        entryPrice := 0
        trades := st.trades ++
          [{ date := signal.date, type := SignalType.SELL, price := signal.price,
             quantity := st.position, profit := some profit }]
        winningTrades := if profit > 0 then st.winningTrades + 1 else st.winningTrades
        totalTrades := st.totalTrades + 1
        equityCurve := st.equityCurve ++ [{ date := signal.date, equity := capital' }]
        peak := peak'
        maxDrawdown := maxDrawdown' }
  else st

/-- The state after the whole signal loop. -/
def loopState (signals : List Signal) (initialCapital : ℚ) : SimState :=
  signals.foldl simStep (initState signals initialCapital)

/-- The `if (position > 0 && signals.length > 0)` block that
force-closes a still-open position at the price of the last signal.  As in
the source, `position`, `entryPrice`, `peak` and `maxDrawdown` are left
untouched. -/
def forceClose (st : SimState) (signals : List Signal) : SimState :=
  match signals.getLast? with
  | none => st
  | some lastSignal =>
      if st.position > 0 then
        let sellValue := (st.position : ℚ) * lastSignal.price
        let profit := sellValue - (st.position : ℚ) * st.entryPrice
        let capital' := st.capital + sellValue
        { st with
            capital := capital'
            trades := st.trades ++
              [{ date := lastSignal.date, type := SignalType.SELL,
                 price := lastSignal.price, quantity := st.position,
                 profit := some profit }]
            winningTrades := if profit > 0 then st.winningTrades + 1 else st.winningTrades
            totalTrades := st.totalTrades + 1
            equityCurve := st.equityCurve ++
              [{ date := lastSignal.date, equity := capital' }] }
      else st

/-- The summary record built at the end of `simulateTrades`.
`profitPercentage` divides by the caller-supplied `initialCapital` with no
guard, so a zero initial capital yields `NaN` in the source, modelled
as `none`; the guarded `winRate` and `avgTradeProfit` stay in `ℚ`. -/
structure Summary where
  initialCapital : ℚ
  finalCapital : ℚ
  profit : ℚ
  profitPercentage : Option ℚ
  totalTrades : ℕ
  winningTrades : ℕ
  losingTrades : ℕ
  winRate : ℚ
  maxDrawdown : ℚ
  avgTradeProfit : ℚ
deriving DecidableEq, Repr

/-- The summary computation at the end of `simulateTrades`. -/
def mkSummary (initialCapital : ℚ) (st : SimState) : Summary :=
  let finalCapital := st.capital
  let profit := finalCapital - initialCapital
  { initialCapital := initialCapital
    finalCapital := finalCapital
    profit := profit
    profitPercentage :=
      if initialCapital = 0 then none else some (profit / initialCapital * 100)
    totalTrades := st.totalTrades
    winningTrades := st.winningTrades
    losingTrades := st.totalTrades - st.winningTrades
    winRate :=
      if st.totalTrades > 0 then (st.winningTrades : ℚ) / (st.totalTrades : ℚ) * 100
      else 0
    maxDrawdown := st.maxDrawdown
    avgTradeProfit :=
      if st.totalTrades > 0 then profit / (st.totalTrades : ℚ) else 0 }

/-- The `{trades, summary, equityCurve}` bundle returned by
`simulateTrades`. -/
structure SimResult where
  trades : List Trade
  summary : Summary
  equityCurve : List EquityPoint
deriving DecidableEq, Repr

/-- `simulateTrades(signals, initialCapital)`: the signal loop, the
forced close of a remaining position, and the summary.  The source
contains no `throw` and no validation of `initialCapital`; the
function is total. -/
def simulateTrades (signals : List Signal) (initialCapital : ℚ) : SimResult :=
  let final := forceClose (loopState signals initialCapital) signals
  { trades := final.trades
    summary := mkSummary initialCapital final
    equityCurve := final.equityCurve }

/-! ## `getBacktestDetails` summary recomputation
(`backtestService.ts`, lines 197–209) -/

/-- The stored backtest row fields read by `getBacktestDetails`. -/
structure BacktestRecord where
  initialCapital : ℚ
  finalCapital : ℚ
  profitLoss : ℚ
  profitLossPercentage : ℚ
  totalTrades : ℕ
  winningTrades : ℕ
  maxDrawdown : ℚ
deriving DecidableEq, Repr

/-- The summary object recomputed by `getBacktestDetails`.  Its
`winRate` and `avgTradeProfit` divide by `totalTrades` with no
zero-trade guard, so `totalTrades = 0` yields `NaN` in the source,
modelled as `none`. -/
structure DetailsSummary where
  initialCapital : ℚ
  finalCapital : ℚ
  profit : ℚ
  profitPercentage : ℚ
  totalTrades : ℕ
  winningTrades : ℕ
  losingTrades : ℕ
  winRate : Option ℚ
  maxDrawdown : ℚ
  avgTradeProfit : Option ℚ
deriving DecidableEq, Repr

/-- The `summary` literal built inside `getBacktestDetails` from a
stored backtest row. -/
def getBacktestDetailsSummary (b : BacktestRecord) : DetailsSummary :=
  { initialCapital := b.initialCapital
    finalCapital := b.finalCapital
    profit := b.profitLoss
    profitPercentage := b.profitLossPercentage
    totalTrades := b.totalTrades
    winningTrades := b.winningTrades
    losingTrades := b.totalTrades - b.winningTrades
    winRate :=
      if b.totalTrades = 0 then none
      else some ((b.winningTrades : ℚ) / (b.totalTrades : ℚ) * 100)
    maxDrawdown := b.maxDrawdown
    avgTradeProfit :=
      if b.totalTrades = 0 then none
      else some (b.profitLoss / (b.totalTrades : ℚ)) }

/-- `true` exactly when an `applyStrategy` outcome is a thrown
`TypeError`. -/
def resultIsTypeError (r : Except JsError (List Signal)) : Bool :=
  match r with
  | .error e => e.isTypeError
  | .ok _ => false

/-- Sum of the non-null `profit` fields of a trade list (the realised
profit of its closing SELL trades). -/
def closedProfit (trades : List Trade) : ℚ :=
  (trades.filterMap Trade.profit).sum

/-! ## Helper lemmas about the simulation loop -/

theorem foldl_simStep_preserve (P : SimState → Prop) (sigs : List Signal)
    (h : ∀ st s, s ∈ sigs → P st → P (simStep st s)) (st : SimState) (hst : P st) :
    P (sigs.foldl simStep st) := by
  induction sigs generalizing st with
  | nil => exact hst
  | cons a l ih =>
      exact ih (fun st' s hs => h st' s (List.mem_cons_of_mem _ hs)) _
        (h st a (List.mem_cons_self _ _) hst)

theorem simStep_winning_le_total (st : SimState) (s : Signal)
    (h : st.winningTrades ≤ st.totalTrades) :
    (simStep st s).winningTrades ≤ (simStep st s).totalTrades := by
  simp only [simStep]
  split_ifs <;> (try simp) <;> omega

theorem forceClose_winning_le_total (st : SimState) (sigs : List Signal)
    (h : st.winningTrades ≤ st.totalTrades) :
    (forceClose st sigs).winningTrades ≤ (forceClose st sigs).totalTrades := by
  unfold forceClose
  cases sigs.getLast? with
  | none => exact h
  | some lastSignal =>
      split_ifs <;> (try simp) <;> (try split_ifs) <;> omega

theorem simStep_stuck (st : SimState) (s : Signal) (hc : st.capital = 0)
    (hp : st.position = 0) : simStep st s = st := by
  simp [simStep, hc, hp]

theorem forceClose_flat (st : SimState) (sigs : List Signal)
    (hp : st.position = 0) : forceClose st sigs = st := by
  unfold forceClose
  cases sigs.getLast? with
  | none => rfl
  | some lastSignal => simp [hp]

/-! ## Claims about the Trade Simulator -/

/-- C2 (counterexample): The claim says the Trade Simulator fails
with `InvalidParameter` when `initialCapital = 0`.  `simulateTrades`
contains no validation at all: on a one-BUY signal list with initial
capital `0` it returns an ordinary summary (with `totalTrades = 0`,
since no shares are affordable), not an error. -/
theorem simulateTrades_zero_capital_returns_summary :
    (simulateTrades [{ date := 7, type := SignalType.BUY, price := 3 }] 0).summary =
      { initialCapital := 0, finalCapital := 0, profit := 0, profitPercentage := none,
        totalTrades := 0, winningTrades := 0, losingTrades := 0, winRate := 0,
        maxDrawdown := 0, avgTradeProfit := 0 } := by
  norm_num [simulateTrades, loopState, initState, simStep, forceClose, mkSummary]

/-- C2 (amended): `simulateTrades` performs no validation of
`initialCapital`: with `initialCapital = 0` it returns a summary for
every signal sequence — no BUY can execute (`⌊0 / price⌋ = 0`), so the
trade list is empty and `totalTrades = 0`. -/
theorem simulateTrades_zero_capital (signals : List Signal) :
    (simulateTrades signals 0).summary.totalTrades = 0 ∧
    (simulateTrades signals 0).trades = [] := by
  have hloop : loopState signals 0 = initState signals 0 := by
    unfold loopState
    generalize hst : initState signals 0 = st
    have hc : st.capital = 0 := by rw [← hst]; rfl
    have hp : st.position = 0 := by rw [← hst]; rfl
    clear hst
    induction signals with
    | nil => rfl
    | cons a l ih => rw [List.foldl_cons, simStep_stuck st a hc hp]; exact ih
  unfold simulateTrades
  rw [hloop, forceClose_flat _ _ (by rfl)]
  exact ⟨rfl, rfl⟩

/-- C5: For every input signal sequence and initial capital, the
summary returned by `simulateTrades` satisfies
`totalTrades = winningTrades + losingTrades` (the source computes
`losingTrades` as `totalTrades - winningTrades`, and winning closes are
always counted into both counters together). -/
theorem simulateTrades_trade_count_split (signals : List Signal) (c : ℚ) :
    (simulateTrades signals c).summary.totalTrades =
      (simulateTrades signals c).summary.winningTrades +
        (simulateTrades signals c).summary.losingTrades := by
  have hinv : (forceClose (loopState signals c) signals).winningTrades ≤
      (forceClose (loopState signals c) signals).totalTrades := by
    apply forceClose_winning_le_total
    apply foldl_simStep_preserve (P := fun st => st.winningTrades ≤ st.totalTrades)
    · intro st s _ h; exact simStep_winning_le_total st s h
    · exact le_refl 0
  simp only [simulateTrades, mkSummary, Summary.totalTrades, Summary.winningTrades,
    Summary.losingTrades]
  omega

/-- C3: Whenever the simulation loop ends still holding a position
(`position > 0`) on a non-empty signal sequence, `simulateTrades`
appends exactly one closing SELL trade at the price of the last signal, with
the held quantity, a non-null `profit` equal to
`quantity * (sellPrice - entryPrice)`, and `totalTrades` one larger
than at the end of the loop — identical in form to a normal close. -/
theorem simulateTrades_force_close (signals : List Signal) (c : ℚ) (lastSig : Signal)
    (hlast : signals.getLast? = some lastSig)
    (hpos : 0 < (loopState signals c).position) :
    (simulateTrades signals c).trades =
      (loopState signals c).trades ++
        [{ date := lastSig.date, type := SignalType.SELL, price := lastSig.price,
           quantity := (loopState signals c).position,
           profit := some (((loopState signals c).position : ℚ) * lastSig.price -
             ((loopState signals c).position : ℚ) * (loopState signals c).entryPrice) }] ∧
    (simulateTrades signals c).summary.totalTrades =
      (loopState signals c).totalTrades + 1 := by
  unfold simulateTrades forceClose
  rw [hlast]
  simp [hpos, mkSummary]

/-- C3 (witness): A run with a single executed BUY (capital 100 at
price 10) and no SELL signal: the simulator force-closes at the final
signal price, ending with `totalTrades = 1` and a non-null profit
(`some 0`) on the closing trade. -/
theorem simulateTrades_force_close_witness :
    (simulateTrades [{ date := 5, type := SignalType.BUY, price := 10 }] 100).trades =
      (loopState [{ date := 5, type := SignalType.BUY, price := 10 }] 100).trades ++
        [{ date := 5, type := SignalType.SELL, price := 10,
           quantity := (loopState [{ date := 5, type := SignalType.BUY, price := 10 }] 100).position,
           profit := some
             (((loopState [{ date := 5, type := SignalType.BUY, price := 10 }] 100).position : ℚ) * 10 -
              ((loopState [{ date := 5, type := SignalType.BUY, price := 10 }] 100).position : ℚ) *
                (loopState [{ date := 5, type := SignalType.BUY, price := 10 }] 100).entryPrice) }] ∧
    (simulateTrades [{ date := 5, type := SignalType.BUY, price := 10 }] 100).summary.totalTrades =
      (loopState [{ date := 5, type := SignalType.BUY, price := 10 }] 100).totalTrades + 1 :=
  simulateTrades_force_close [{ date := 5, type := SignalType.BUY, price := 10 }] 100
    { date := 5, type := SignalType.BUY, price := 10 } rfl
    (by norm_num [loopState, initState, simStep])

/-! ## C4: cash and position never go negative -/

theorem simStep_nonneg (st : SimState) (s : Signal) (hp : 0 < s.price)
    (h : 0 ≤ st.capital ∧ 0 ≤ st.position) :
    0 ≤ (simStep st s).capital ∧ 0 ≤ (simStep st s).position := by
  obtain ⟨hc, hpos⟩ := h
  simp only [simStep]
  split_ifs with h1 h2 h3 <;> try exact ⟨hc, hpos⟩
  -- the executed BUY: capital falls by exactly ⌊capital / price⌋ * price
  · have hfloor : (⌊st.capital / s.price⌋ : ℚ) ≤ st.capital / s.price := Int.floor_le _
    have hmul : (⌊st.capital / s.price⌋ : ℚ) * s.price ≤ st.capital / s.price * s.price :=
      mul_le_mul_of_nonneg_right hfloor (le_of_lt hp)
    rw [div_mul_cancel₀ _ (ne_of_gt hp)] at hmul
    exact ⟨show (0:ℚ) ≤ st.capital - (⌊st.capital / s.price⌋ : ℚ) * s.price by linarith,
           le_of_lt h2⟩
  -- the four SELL sub-cases (peak / drawdown / winning splits) share
  -- the same capital and position fields
  all_goals {
    have hsell : 0 ≤ (st.position : ℚ) * s.price :=
      mul_nonneg (by exact_mod_cast le_of_lt h3.2) (le_of_lt hp)
    exact ⟨show (0:ℚ) ≤ st.capital + (st.position : ℚ) * s.price by linarith,
           show (0:ℤ) ≤ 0 from le_refl 0⟩
  }

/-- C4: For a signal sequence with strictly positive prices and a
non-negative initial capital, after every processed signal the
simulator cash balance and position quantity are non-negative: a BUY
at price `p` deducts exactly `⌊cash / p⌋ * p`, which never exceeds the
available cash. -/
theorem simulateTrades_cash_position_nonneg (signals : List Signal) (c : ℚ)
    (hc : 0 ≤ c) (hp : ∀ s ∈ signals, 0 < s.price) (n : ℕ) :
    0 ≤ ((signals.take n).foldl simStep (initState signals c)).capital ∧
    0 ≤ ((signals.take n).foldl simStep (initState signals c)).position := by
  apply foldl_simStep_preserve (P := fun st => 0 ≤ st.capital ∧ 0 ≤ st.position)
  · intro st s hs h
    exact simStep_nonneg st s (hp s (List.take_subset n signals hs)) h
  · exact ⟨hc, le_refl 0⟩

/-- C4 (witness): Initial capital 10, one BUY at price 3: after the
signal the cash is `10 - 3·3 = 1 ≥ 0` and the position is `3 ≥ 0`. -/
theorem simulateTrades_cash_position_nonneg_witness :
    0 ≤ ((([{ date := 0, type := SignalType.BUY, price := 3 }] :
          List Signal).take 1).foldl simStep
        (initState [{ date := 0, type := SignalType.BUY, price := 3 }] 10)).capital ∧
    0 ≤ ((([{ date := 0, type := SignalType.BUY, price := 3 }] :
          List Signal).take 1).foldl simStep
        (initState [{ date := 0, type := SignalType.BUY, price := 3 }] 10)).position :=
  simulateTrades_cash_position_nonneg
    [{ date := 0, type := SignalType.BUY, price := 3 }] 10 (by norm_num)
    (by intro s hs; rw [List.mem_singleton] at hs; subst hs; norm_num) 1

/-! ## C9: profit accounting -/

theorem closedProfit_append_none (tr : List Trade) (t : Trade) (h : t.profit = none) :
    closedProfit (tr ++ [t]) = closedProfit tr := by
  simp [closedProfit, List.filterMap_append, h]

theorem closedProfit_append_some (tr : List Trade) (t : Trade) (p : ℚ)
    (h : t.profit = some p) :
    closedProfit (tr ++ [t]) = closedProfit tr + p := by
  simp [closedProfit, List.filterMap_append, h]

theorem simStep_accounting (st : SimState) (s : Signal) :
    (simStep st s).capital + ((simStep st s).position : ℚ) * (simStep st s).entryPrice -
        closedProfit (simStep st s).trades =
      st.capital + (st.position : ℚ) * st.entryPrice - closedProfit st.trades := by
  simp only [simStep]
  split_ifs with h1 h2 h3 <;> try rfl
  · rw [h1.2]
    simp [closedProfit]
    try ring
  all_goals (simp [closedProfit]; try ring)

theorem simStep_position_nonneg (st : SimState) (s : Signal) (h : 0 ≤ st.position) :
    0 ≤ (simStep st s).position := by
  simp only [simStep]
  split_ifs with h1 h2 h3 <;> try exact h
  · exact le_of_lt h2
  all_goals exact le_refl 0

theorem loopState_accounting (signals : List Signal) (c : ℚ) :
    (loopState signals c).capital + ((loopState signals c).position : ℚ) *
        (loopState signals c).entryPrice - closedProfit (loopState signals c).trades = c := by
  apply foldl_simStep_preserve
    (P := fun st => st.capital + (st.position : ℚ) * st.entryPrice -
      closedProfit st.trades = c)
  · intro st s _ h; rw [simStep_accounting]; exact h
  · simp [initState, closedProfit]

theorem loopState_position_nonneg (signals : List Signal) (c : ℚ) :
    0 ≤ (loopState signals c).position := by
  apply foldl_simStep_preserve (P := fun st => 0 ≤ st.position)
  · intro st s _ h; exact simStep_position_nonneg st s h
  · exact le_refl 0

/-- C9: For every run of `simulateTrades`, the realised profit
`finalCapital - initialCapital` equals the sum of the non-null `profit`
fields of the recorded trades, and `avgTradeProfit` equals that total
closed-trade profit divided by `totalTrades` (and `0` when there are no
closed trades). -/
theorem simulateTrades_profit_accounting (signals : List Signal) (c : ℚ) :
    (simulateTrades signals c).summary.finalCapital -
        (simulateTrades signals c).summary.initialCapital =
      closedProfit (simulateTrades signals c).trades ∧
    (simulateTrades signals c).summary.avgTradeProfit =
      (if (simulateTrades signals c).summary.totalTrades = 0 then 0
       else closedProfit (simulateTrades signals c).trades /
         ((simulateTrades signals c).summary.totalTrades : ℚ)) := by
  have hacct := loopState_accounting signals c
  have hposn := loopState_position_nonneg signals c
  have key : (forceClose (loopState signals c) signals).capital - c =
      closedProfit (forceClose (loopState signals c) signals).trades := by
    unfold forceClose
    cases hl : signals.getLast? with
    | none =>
        rw [List.getLast?_eq_none_iff] at hl
        subst hl
        simp only [loopState, List.foldl_nil] at hacct ⊢
        simp [initState, closedProfit] at hacct ⊢
    | some lastSig =>
        split_ifs with hpos
        · rw [closedProfit_append_some _ _ _ rfl]
          show (loopState signals c).capital +
              ((loopState signals c).position : ℚ) * lastSig.price - c =
            closedProfit (loopState signals c).trades +
              (((loopState signals c).position : ℚ) * lastSig.price -
               ((loopState signals c).position : ℚ) * (loopState signals c).entryPrice)
          linarith
        · have hzero : (loopState signals c).position = 0 :=
            le_antisymm (not_lt.mp hpos) hposn
          rw [hzero] at hacct
          push_cast at hacct
          linarith
  constructor
  · exact key
  · show (mkSummary c (forceClose (loopState signals c) signals)).avgTradeProfit = _
    simp only [mkSummary]
    rcases Nat.eq_zero_or_pos (forceClose (loopState signals c) signals).totalTrades
      with h0 | hgt
    · simp [simulateTrades, mkSummary, h0]
    · have hne : (forceClose (loopState signals c) signals).totalTrades ≠ 0 :=
        Nat.pos_iff_ne_zero.mp hgt
      simp only [simulateTrades, mkSummary, hgt, hne, if_pos, if_neg, if_false]
      rw [← key]

/-! ## C7: RSI on non-decreasing price series -/

theorem rsiOf_lt_100 (g l : ℚ) (hg : 0 ≤ g) (hl : 0 ≤ l) : rsiOf g l < 100 := by
  simp only [rsiOf]
  have hd : 0 < (if l = 0 then (1:ℚ)/1000 else l) := by
    split_ifs with h
    · norm_num
    · exact lt_of_le_of_ne hl (Ne.symm h)
  have hrs : 0 ≤ g / (if l = 0 then (1:ℚ)/1000 else l) := div_nonneg hg hd.le
  have hfrac : 0 < 100 / (1 + g / (if l = 0 then (1:ℚ)/1000 else l)) :=
    div_pos (by norm_num) (by linarith)
  linarith

theorem rsiLoop_lt_100 (period : ℕ) (hper : 1 ≤ period) :
    ∀ (pairs : List (ℚ × ℚ)) (g l : ℚ), 0 ≤ g → 0 ≤ l →
      (∀ p ∈ pairs, 0 ≤ p.1 ∧ 0 ≤ p.2) →
      ∀ r ∈ rsiLoop period g l pairs, r < 100 := by
  intro pairs
  induction pairs with
  | nil => intro g l _ _ _ r hr; simp [rsiLoop] at hr
  | cons gl rest ih =>
      intro g l hg hl hmem r hr
      have hper' : (0:ℚ) ≤ (period : ℚ) - 1 := by
        have h1 : (1:ℚ) ≤ (period : ℚ) := by exact_mod_cast hper
        linarith
      have hpq : (0:ℚ) ≤ (period : ℚ) := by positivity
      have hg' : 0 ≤ (g * ((period : ℚ) - 1) + gl.1) / (period : ℚ) :=
        div_nonneg
          (add_nonneg (mul_nonneg hg hper') (hmem gl (List.mem_cons_self _ _)).1) hpq
      have hl' : 0 ≤ (l * ((period : ℚ) - 1) + gl.2) / (period : ℚ) :=
        div_nonneg
          (add_nonneg (mul_nonneg hl hper') (hmem gl (List.mem_cons_self _ _)).2) hpq
      simp only [rsiLoop] at hr
      rcases List.mem_cons.mp hr with h | h
      · subst h; exact rsiOf_lt_100 _ _ hg' hl'
      · exact ih _ _ hg' hl' (fun p hp => hmem p (List.mem_cons_of_mem _ hp)) r h

theorem gains_nonneg (ds : List ℚ) :
    ∀ x ∈ ds.map (fun c => if c > 0 then c else 0), 0 ≤ x := by
  intro x hx
  rcases List.mem_map.mp hx with ⟨c, _, rfl⟩
  split_ifs with h
  · exact le_of_lt h
  · exact le_refl 0

theorem losses_nonneg (ds : List ℚ) :
    ∀ x ∈ ds.map (fun c => if c < 0 then -c else 0), 0 ≤ x := by
  intro x hx
  rcases List.mem_map.mp hx with ⟨c, _, rfl⟩
  split_ifs with h
  · linarith
  · exact le_refl 0

/-- C7 (counterexample): The non-decreasing price series
`[1, 2, 3, 4]` with `period = 2` has average loss `0`, yet
`calculateRSI` outputs `100000/1001 ≈ 99.9`, not `100`: the source
substitutes `0.001` for a zero average loss instead of short-circuiting
to `100`. -/
theorem calculateRSI_nondecreasing_not_100 :
    calculateRSI [1, 2, 3, 4] 2 = [100000/1001, 100000/1001] ∧
    (100000/1001 : ℚ) ≠ 100 := by
  constructor
  · norm_num [calculateRSI, deltas, rsiLoop, rsiOf]
  · norm_num

/-- C7 (amended): For every price series of sufficient length whose
consecutive deltas are all non-negative, every RSI value output by
`calculateRSI` is strictly less than `100` (never exactly `100`),
because a zero average loss is replaced by `0.001` in the
relative-strength quotient. -/
theorem calculateRSI_lt_100 (data : List ℚ) (period : ℕ) (hper : 0 < period)
    (_hlen : period + 1 ≤ data.length) (_hmono : ∀ d ∈ deltas data, 0 ≤ d)
    (r : ℚ) (hr : r ∈ calculateRSI data period) : r < 100 := by
  have hgainsAll := gains_nonneg (deltas data)
  have hlossAll := losses_nonneg (deltas data)
  have hag : 0 ≤ ((((deltas data).map (fun c => if c > 0 then c else 0)).take period).sum) /
      (period : ℚ) :=
    div_nonneg (List.sum_nonneg (fun x hx => hgainsAll x (List.take_subset _ _ hx)))
      (by positivity)
  have hal : 0 ≤ ((((deltas data).map (fun c => if c < 0 then -c else 0)).take period).sum) /
      (period : ℚ) :=
    div_nonneg (List.sum_nonneg (fun x hx => hlossAll x (List.take_subset _ _ hx)))
      (by positivity)
  simp only [calculateRSI] at hr
  rcases List.mem_cons.mp hr with h | h
  · subst h; exact rsiOf_lt_100 _ _ hag hal
  · refine rsiLoop_lt_100 period hper _ _ _ hag hal ?_ r h
    intro p hp
    obtain ⟨hp1, hp2⟩ := List.of_mem_zip (by exact hp)
    exact ⟨hgainsAll p.1 (List.drop_subset _ _ hp1), hlossAll p.2 (List.drop_subset _ _ hp2)⟩

/-- C7 (witness): On the concrete non-decreasing series
`[1, 2, 3, 4]` with `period = 2`, the value `100000/1001` is an RSI
output and is indeed below `100`. -/
theorem calculateRSI_lt_100_witness :
    (100000/1001 : ℚ) ∈ calculateRSI [1, 2, 3, 4] 2 ∧ (100000/1001 : ℚ) < 100 :=
  ⟨by norm_num [calculateRSI, deltas, rsiLoop, rsiOf],
   calculateRSI_lt_100 [1, 2, 3, 4] 2 (by norm_num) (by norm_num)
     (by norm_num [deltas]) (100000/1001)
     (by norm_num [calculateRSI, deltas, rsiLoop, rsiOf])⟩

/-! ## C8: EMA on too-short input -/

/-- C8 (counterexample): The claim says `ema` fails with
`InsufficientData` when `len(prices) < period`.  `calculateEMA` has no
length check: on `[1, 2]` with `period = 5` it returns the value
`[3/5]` (the under-filled seed average) instead of raising anything. -/
theorem calculateEMA_short_returns_value :
    calculateEMA [1, 2] 5 = [3/5] := by
  norm_num [calculateEMA, emaLoop]

/-- C8 (amended): When `len(prices) < period`, `calculateEMA`
performs no validation and returns the one-element list
`[sum(prices) / period]`; the length guard lives in its caller
`movingAverageCrossover`, which returns a `NEUTRAL` signal — not an
error — when the candle count is below `longPeriod`. -/
theorem calculateEMA_no_length_check :
    (∀ (prices : List ℚ) (period : ℕ), prices.length < period →
        calculateEMA prices period = [prices.sum / (period : ℚ)]) ∧
    (∀ (data : List Candle) (shortPeriod longPeriod : ℕ),
        data.length < longPeriod →
        (movingAverageCrossover data shortPeriod longPeriod).signal = "NEUTRAL") := by
  constructor
  · intro prices period h
    simp only [calculateEMA]
    rw [List.take_of_length_le h.le, List.drop_eq_nil_of_le h.le]
    rfl
  · intro data shortPeriod longPeriod h
    simp [movingAverageCrossover, h]

/-- C8 (witness): `calculateEMA [2, 4] 8 = [6/8]` and a one-candle
input to `movingAverageCrossover` with `longPeriod = 5` yields the
`NEUTRAL` signal. -/
theorem calculateEMA_no_length_check_witness :
    calculateEMA [2, 4] 8 = [([2, 4] : List ℚ).sum / ((8 : ℕ) : ℚ)] ∧
    (movingAverageCrossover
      [{ timestamp := 0, openPrice := 1, high := 1, low := 1, close := 1, volume := 1 }]
      2 5).signal = "NEUTRAL" :=
  ⟨calculateEMA_no_length_check.1 [2, 4] 8 (by norm_num),
   calculateEMA_no_length_check.2 _ 2 5 (by norm_num)⟩

/-! ## C6: winRate recomputation on the read path -/

/-- C6: On a stored backtest record with `totalTrades = 0`, the
summary recomputed by `getBacktestDetails` divides by zero:
`winRate = (0/0)*100 = NaN` (modelled `none`) instead of the `0` the
claim requires, while `simulateTrades` itself guards the same division
and does return `winRate = 0` for a zero-trade run. -/
theorem getBacktestDetails_winRate_zero_trades :
    (getBacktestDetailsSummary
      { initialCapital := 100, finalCapital := 100, profitLoss := 0,
        profitLossPercentage := 0, totalTrades := 0, winningTrades := 0,
        maxDrawdown := 0 }).winRate = none ∧
    (simulateTrades [] 100).summary.winRate = 0 := ⟨rfl, rfl⟩

/-! ## C1 and C10: applyStrategy crashes before producing signals -/

/-- C1: The claim says `applyStrategy` returns a Signal sequence of
the length of the input with leading HOLDs.  It cannot: evaluated on a
concrete two-candle input with the supported name
`Moving Average Crossover`, it raises a `TypeError`
(`result.map` on the single record returned by the strategy function)
before any signal list exists — and its final `filter` would drop HOLD
entries anyway. -/
theorem applyStrategy_typeError_on_crossover :
    applyStrategy
      [{ timestamp := 0, openPrice := 100, high := 101, low := 99, close := 100, volume := 1000 },
       { timestamp := 1, openPrice := 100, high := 103, low := 100, close := 102, volume := 1100 }]
      "Moving Average Crossover" {} =
    Except.error (JsError.typeError "result.map is not a function") := rfl

/-- C10: For every non-empty candle sequence, every parameter set,
and each of the four supported strategy names, `applyStrategy` fails
with a `TypeError` (`result.map` invoked on the single `{signal, meta}`
record) before producing any signal list, so this path never reaches
the Trade Simulator. -/
theorem applyStrategy_always_typeError (data : List Candle) (p : Params)
    (strategyName : String) (hd : data ≠ [])
    (hname : strategyName = "Moving Average Crossover" ∨ strategyName = "RSI Strategy" ∨
      strategyName = "MACD Strategy" ∨ strategyName = "Bollinger Bands Strategy") :
    resultIsTypeError (applyStrategy data strategyName p) = true := by
  have hne : data.isEmpty = false := by
    cases data with
    | nil => exact absurd rfl hd
    | cons a l => rfl
  rcases hname with h | h | h | h <;> subst h <;>
    simp [applyStrategy, applyStrategyRaw, resultIsTypeError, hne, JsError.isTypeError] <;>
    rfl

/-- C10 (witness): A concrete one-candle input under
`RSI Strategy` makes `applyStrategy` raise the `TypeError`. -/
theorem applyStrategy_always_typeError_witness :
    resultIsTypeError (applyStrategy
      [{ timestamp := 0, openPrice := 5, high := 6, low := 4, close := 5, volume := 10 }]
      "RSI Strategy" {}) = true :=
  applyStrategy_always_typeError _ {} "RSI Strategy" (by simp) (Or.inr (Or.inl rfl))

end Tradebot
